import Mathlib

/-!
Shallow embedding of the portfolio-to-report pipeline of `update_portfolio.py`
(the single logic-bearing source file of this repository), together with
theorems settling the frozen claims about it.

Modelling conventions:
* Python floats produced by `float(...)` are modelled as rationals;
  the claims settled here only depend on exact sign tests and on values
  that are exactly representable.
* The two network calls are abstracted as an oracle `PortfolioData`
  argument; the trace of outbound HTTP calls is made explicit so that
  claims about "zero network calls" are statable.
* Python exceptions (ValueError at startup, StopIteration in main,
  parse errors in fromisoformat) are modelled with `Option`/error results.
-/

/-! ### Decimal rendering helpers (embed the Python number formatting) -/

/-- Decimal digit character for a digit value below ten. -/
def digitChar (d : ℕ) : Char := Char.ofNat (48 + d)

/-- Decimal digits of a natural number, least significant first, with
explicit fuel so that the recursion is structural; fuel at least the
number of digits suffices and the callers pass the number itself. -/
def natDecAux : ℕ → ℕ → List Char
  | 0, _ => []
  | fuel + 1, n => if n = 0 then [] else digitChar (n % 10) :: natDecAux fuel (n / 10)

/-- Decimal digits of a natural number, least significant first. -/
def natDecRev (n : ℕ) : List Char := natDecAux n n

/-- Standard decimal rendering of a natural number, as Python renders an int. -/
def natDec (n : ℕ) : String :=
  if n = 0 then "0" else String.mk ((natDecRev n).reverse)

/-- Two-digit zero-padded rendering, faithful to the Python behaviour for
numbers below one hundred (the only arguments the pipeline feeds it). -/
def pad2 (n : ℕ) : String :=
  String.mk [digitChar (n / 10 % 10), digitChar (n % 10)]

/-- Four-digit zero-padded rendering, used for years (validated to 1..9999). -/
def pad4 (n : ℕ) : String :=
  String.mk [digitChar (n / 1000 % 10), digitChar (n / 100 % 10),
    digitChar (n / 10 % 10), digitChar (n % 10)]

/-- Insert a comma after every three characters, walking a reversed digit
list; helper for the thousands separators of the format spec `,.2f`. -/
def commaRev : List Char → List Char
  | [] => []
  | [a] => [a]
  | [a, b] => [a, b]
  | [a, b, c] => [a, b, c]
  | a :: b :: c :: rest => a :: b :: c :: ',' :: commaRev rest

/-- Thousands grouping of a digit string, as the Python `,` format flag does. -/
def commaSep (s : String) : String :=
  String.mk ((commaRev s.data.reverse).reverse)

/-- Magnitude of a rational in hundredths, rounded to the nearest integer
with ties to even: the rounding of the Python two-decimal fixed-point
formatting. Computed by integer division on the reduced fraction, so the
quotient is the floor of the absolute value times one hundred and the
remainder decides the direction of rounding. -/
def centsOf (v : ℚ) : ℕ :=
  let n : ℕ := 100 * v.num.natAbs
  let d : ℕ := v.den
  if 2 * (n % d) < d then n / d
  else if d < 2 * (n % d) then n / d + 1
  else if (n / d) % 2 = 0 then n / d else n / d + 1

/-- Embeds the Python currency formatting of source line 46, the f-string
format spec `$` followed by `,.2f` applied to the current value: dollar
sign, minus sign for negatives, thousands separators, two decimals. -/
def formatUSD (v : ℚ) : String :=
  "$" ++ (if v < 0 then "-" else "") ++
    commaSep (natDec (centsOf v / 100)) ++ "." ++ pad2 (centsOf v % 100)

/-- Embeds the Python gain formatting of source line 236, the f-string
format spec `+.2f` followed by a percent sign: explicit sign, two decimals. -/
def formatSignedPct (v : ℚ) : String :=
  (if v < 0 then "-" else "+") ++
    natDec (centsOf v / 100) ++ "." ++ pad2 (centsOf v % 100) ++ "%"

/-! ### Substring containment -/

/-- The pattern occurs as a contiguous substring of the first string. -/
def containsStr (s pat : String) : Prop := pat.data <:+: s.data

instance containsStrDec (s pat : String) : Decidable (containsStr s pat) :=
  List.decidableInfix pat.data s.data

/-! ### Dates: the modelled subset of the Python datetime library -/

/-- A Python date value, the result of the date method of a datetime. -/
structure PyDate where
  year : ℕ
  month : ℕ
  day : ℕ
deriving DecidableEq

/-- A Python datetime as produced by fromisoformat: calendar fields plus an
optional fixed UTC offset in minutes. -/
structure PyDateTime where
  date : PyDate
  hour : ℕ
  minute : ℕ
  second : ℕ
  offsetMinutes : Option ℤ
deriving DecidableEq

/-- Value of a decimal digit character, none on other characters. -/
def digitVal (c : Char) : Option ℕ :=
  if c.isDigit then some (c.toNat - 48) else none

/-- Read exactly a given count of digit characters, returning their value
and the remaining characters; none if a non-digit is hit. -/
def readDigits : ℕ → ℕ → List Char → Option (ℕ × List Char)
  | 0, acc, cs => some (acc, cs)
  | _ + 1, _, [] => none
  | k + 1, acc, c :: cs =>
    match digitVal c with
    | none => none
    | some d => readDigits k (acc * 10 + d) cs

/-- Consume one expected character. -/
def expectChar (c : Char) : List Char → Option (List Char)
  | [] => none
  | x :: xs => if x = c then some xs else none

/-- Days in a month with the Gregorian leap rule, as the Python datetime
library validates day fields. -/
def daysInMonth (y m : ℕ) : ℕ :=
  if m = 2 then (if y % 4 = 0 ∧ (y % 100 ≠ 0 ∨ y % 400 = 0) then 29 else 28)
  else if m = 4 ∨ m = 6 ∨ m = 9 ∨ m = 11 then 30 else 31

/-- Parse the optional trailing UTC offset `+HH:MM` or `-HH:MM`; an empty
tail means a naive datetime. -/
def fromisoOffset : List Char → Option (Option ℤ)
  | [] => some none
  | sgn :: cs =>
    if sgn = '+' ∨ sgn = '-' then
      (readDigits 2 0 cs).bind fun ohc =>
      (expectChar ':' ohc.2).bind fun cs2 =>
      (readDigits 2 0 cs2).bind fun omc =>
      if ohc.1 ≤ 23 ∧ omc.1 ≤ 59 ∧ omc.2 = [] then
        some (some ((if sgn = '-' then (-1 : ℤ) else 1) * (ohc.1 * 60 + omc.1)))
      else none
    else none

/-- Parse the time-of-day part `HH:MM:SS` followed by the optional offset. -/
def fromisoTime (cs : List Char) : Option (ℕ × ℕ × ℕ × Option ℤ) :=
  (readDigits 2 0 cs).bind fun hc =>
  (expectChar ':' hc.2).bind fun cs2 =>
  (readDigits 2 0 cs2).bind fun mic =>
  (expectChar ':' mic.2).bind fun cs4 =>
  (readDigits 2 0 cs4).bind fun sc =>
  if hc.1 ≤ 23 ∧ mic.1 ≤ 59 ∧ sc.1 ≤ 59 then
    (fromisoOffset sc.2).map fun off => (hc.1, mic.1, sc.1, off)
  else none

/-- After the date fields are read: a bare date means midnight with no
offset, otherwise a separator (T or space, as the library accepts) is
followed by the time part. -/
def fromisoTail (y mo d : ℕ) : List Char → Option PyDateTime
  | [] => some ⟨⟨y, mo, d⟩, 0, 0, 0, none⟩
  | sep :: cs6 =>
    if sep = 'T' ∨ sep = ' ' then
      (fromisoTime cs6).map fun t => ⟨⟨y, mo, d⟩, t.1, t.2.1, t.2.2.1, t.2.2.2⟩
    else none

/-- Modelled subset of the Python datetime fromisoformat classmethod,
covering the shapes this pipeline feeds it: a date `YYYY-MM-DD`,
optionally followed by a separator and a time `HH:MM:SS`, optionally
followed by an offset `+HH:MM` or `-HH:MM`; field ranges are validated as
the library does. Fractional seconds and other ISO variants are omitted,
as the claims never exercise them. -/
def fromisoformat (str : String) : Option PyDateTime :=
  (readDigits 4 0 str.data).bind fun yc =>
  (expectChar '-' yc.2).bind fun cs2 =>
  (readDigits 2 0 cs2).bind fun moc =>
  (expectChar '-' moc.2).bind fun cs4 =>
  (readDigits 2 0 cs4).bind fun dc =>
  if 1 ≤ yc.1 ∧ 1 ≤ moc.1 ∧ moc.1 ≤ 12 ∧ 1 ≤ dc.1 ∧ dc.1 ≤ daysInMonth yc.1 moc.1 then
    fromisoTail yc.1 moc.1 dc.1 dc.2
  else none

/-- Embeds the Python replace method for a one-character pattern, replacing
every occurrence, as source line 48 does with the trailing Z marker. -/
def pyReplaceChar (s : String) (old : Char) (new : String) : String :=
  String.mk (s.data.flatMap (fun c => if c = old then new.data else [c]))

/-- Embeds source line 48: replace a Z suffix with a zero UTC offset, parse
with fromisoformat and keep only the calendar date, discarding time of day.
The date method of a Python datetime reads the stored calendar fields and
never consults the process-local timezone, hence no timezone argument. -/
def openedAtDate (s : String) : Option PyDate :=
  (fromisoformat (pyReplaceChar s 'Z' ("+00:00"))).map (fun dt => dt.date)

/-! ### The data model of the API response (source lines 34-49, 270) -/

/-- The instrument object of a position. -/
structure Instrument where
  symbol : String
deriving DecidableEq

/-- The cost-basis object of a position; only the gain percentage is read. -/
structure CostBasis where
  gainPercentage : ℚ
deriving DecidableEq

/-- One position of the portfolio response, with exactly the fields the
script reads. -/
structure Position where
  instrument : Instrument
  currentValue : ℚ
  costBasis : CostBasis
  openedAt : String
deriving DecidableEq

/-- One entry of the equity array of the portfolio response. -/
structure EquityEntry where
  type : String
  value : String
deriving DecidableEq

/-- The portfolio JSON response: an optional positions array (the script
reads it with a get defaulting to the empty list) and the equity array. -/
structure PortfolioData where
  positions : Option (List Position)
  equity : List EquityEntry
deriving DecidableEq

/-- One row of the DataFrame built by portfolio_to_df (source lines 44-49):
raw symbol, currency-formatted value string, gain kept as a number, and the
acquisition date. -/
structure Row where
  symbol : String
  value : String
  profit : ℚ
  dayBought : PyDate
deriving DecidableEq

/-- Embeds the row construction of source lines 42-49 for one position;
none models the uncaught parse error on a malformed timestamp. -/
def positionRow (p : Position) : Option Row :=
  (openedAtDate p.openedAt).map (fun d =>
    { symbol := p.instrument.symbol
      value := formatUSD p.currentValue
      profit := p.costBasis.gainPercentage
      dayBought := d })

/-- Code-point lexicographic strict comparison of character lists: the
comparison Python uses on strings. -/
def strLtb : List Char → List Char → Bool
  | x :: xs, y :: ys =>
    if x < y then true else if y < x then false else strLtb xs ys
  | [], [] => false
  | [], _ :: _ => true
  | _ :: _, [] => false

/-- The sort key relation of source line 53: at-most comparison of the
currency-formatted value strings, code-point lexicographic as in Python. -/
def valueLe (a b : Row) : Prop := strLtb b.value.data a.value.data = false

instance valueLeDec : DecidableRel valueLe :=
  fun a b => inferInstanceAs (Decidable (strLtb b.value.data a.value.data = false))

/-- Embeds the pandas sort of source line 53, sort_values by the value
column with ascending false and the default quicksort kind. Pandas
implements a descending sort by reversing the column, taking an ascending
argsort and reversing the resulting indexer; the underlying numpy argsort
is modelled as a stable insertion sort, which is exact for the small
frames numpy sorts purely by insertion sort (at most sixteen rows) but is
an unguaranteed stability strengthening beyond that size. -/
def sortValuesDesc (rows : List Row) : List Row :=
  (List.insertionSort valueLe rows.reverse).reverse

/-- Embeds portfolio_to_df (source lines 34-54): default the positions
array to empty, return an empty frame on no positions, otherwise build one
row per position and sort by the formatted value string descending; none
models an uncaught exception while building rows. -/
def portfolio_to_df (portfolio_data : PortfolioData) : Option (List Row) :=
  let positions := portfolio_data.positions.getD []
  if positions.isEmpty then some ([] : List Row)
  else
    match positions.mapM positionRow with
    | none => none
    | some rows => some (sortValuesDesc rows)

/-! ### HTML rendering (df_to_html, source lines 57-263)

The CSS literal of source lines 61-212 is reproduced exactly, split into
chunks whose concatenation is character-for-character the Python
triple-quoted string (braces and apostrophes appear as hex escapes). -/

def styleChunk0 : String :=
  "\n        <style>\n    /* --- Base Styles (Mobile-First) --- */\n    body \x7b\n        font-family: \x27Inter\x27, sans-serif;\n        background-color: #121212;\n        color: #E0E0E0;\n        padding: 20px; /* Reduced base padding for mobile */\n        margin: 0;\n        line-height: 1.5;\n        min-height: 100vh; /* Ensures full background on small content pages */\n    \x7d\n\n    /* --- Portfolio Header --- */\n    h1.portfolio-value \x7b\n        text-align: center;\n"

def styleChunk1 : String :=
  "        /* Clamp ensures it scales well across all sizes */\n        font-size: clamp(3.5em, 12vw, 6em);\n        font-weight: 700;\n        color: #4CAF50;\n        margin-bottom: 5px;\n        letter-spacing: -0.5px;\n    \x7d\n    .timestamp \x7b\n        text-align: center;\n        color: #9E9E9E;\n        font-size: clamp(14px, 3vw, 16px);\n        margin-bottom: 30px;\n    \x7d\n\n    /* --- Card Structure (Responsive Table Hack) --- */\n    table, thead, tbody, th, td, tr \x7b display: block; \x7d\n"

def styleChunk2 : String :=
  "    thead \x7b display: none; \x7d\n\n    tr \x7b\n        /* Flex container for content */\n        display: flex;\n        flex-direction: column; /* Stack all content vertically on mobile */\n\n        border-radius: 12px;\n        padding: 16px; /* Slightly reduced padding for mobile space */\n        margin: 12px auto;\n        max-width: 90%; /* Occupy most of the screen */\n        background-color: #1E1E1E;\n        border: 1px solid #282828;\n        box-shadow: 0 4px 10px rgba(0, 0, 0, 0.4);\n        cursor: pointer;\n        transition: transform 0.2s ease-out, box-shadow 0.2s ease-out, background-color 0.2s;\n"

def styleChunk3 : String :=
  "    \x7d\n    tr:hover \x7b\n        transform: translateY(-3px);\n        box-shadow: 0 8px 15px rgba(0, 0, 0, 0.6);\n        background-color: #252525;\n    \x7d\n\n    td \x7b\n        display: block; /* Ensures they act as separate rows inside the flex column */\n        text-align: left;\n        margin: 0; /* Resetting margin for cleaner flex spacing */\n        padding: 4px 0;\n    \x7d\n\n    /* --- Primary Info (Symbol and Value) --- */\n    /* Target the first two TDs (Symbol and Value) to appear on one line */\n"

def styleChunk4 : String :=
  "    tr > td:nth-child(1),\n    tr > td:nth-child(2) \x7b\n        display: flex; /* Make the TD contents flex */\n        justify-content: space-between; /* Push symbol and value apart */\n        align-items: center;\n        padding: 8px 0;\n        border-bottom: 1px solid #282828; /* Separator line */\n    \x7d\n\n    td.symbol \x7b\n        font-size: clamp(22px, 6vw, 28px);\n        font-weight: 700;\n        color: #F5F5F5;\n        text-transform: uppercase;\n    \x7d\n\n"

def styleChunk5 : String :=
  "    td.value \x7b\n        font-size: clamp(28px, 8vw, 32px);\n        font-weight: 600;\n        color: #4CAF50;\n    \x7d\n\n    /* --- Secondary Info (Profit and Day Bought) --- */\n    /* Target the last two TDs (Profit and Day Bought) to appear on one line */\n    tr > td:nth-child(3),\n    tr > td:nth-child(4) \x7b\n        display: flex; /* Make the TD contents flex */\n        justify-content: space-between; /* Push label and value apart */\n        align-items: center;\n        padding: 4px 0;\n        font-size: clamp(14px, 3vw, 16px);\n        color: #A0A0A0;\n"

def styleChunk6 : String :=
  "    \x7d\n\n    td[data-label] \x7b\n        /* Profit Label */\n        width: 50%;\n        text-align: left;\n    \x7d\n\n    td[data-label-time] \x7b\n        /* Day Bought Label */\n        width: 50%;\n        text-align: right;\n    \x7d\n\n    /* --- Gain Colors --- */\n    .gain-positive \x7b\n"

def styleChunk7 : String :=
  "        color: #4CAF50;\n        font-weight: 600;\n    \x7d\n    .gain-negative \x7b\n        color: #F44336;\n        font-weight: 600;\n    \x7d\n\n    /* \x3d\x3d\x3d\x3d\x3d\x3d\x3d\x3d\x3d\x3d\x3d\x3d\x3d\x3d\x3d\x3d\x3d\x3d\x3d\x3d\x3d\x3d\x3d\x3d\x3d\x3d\x3d\x3d\x3d\x3d\x3d\x3d\x3d\x3d\x3d\x3d\x3d\x3d\x3d\x3d\x3d\x3d\x3d\x3d\x3d\x3d\x3d\x3d\x3d\x3d\x3d */\n    /* --- Desktop/Tablet Optimization (Media Query) --- */\n    /* \x3d\x3d\x3d\x3d\x3d\x3d\x3d\x3d\x3d\x3d\x3d\x3d\x3d\x3d\x3d\x3d\x3d\x3d\x3d\x3d\x3d\x3d\x3d\x3d\x3d\x3d\x3d\x3d\x3d\x3d\x3d\x3d\x3d\x3d\x3d\x3d\x3d\x3d\x3d\x3d\x3d\x3d\x3d\x3d\x3d\x3d\x3d\x3d\x3d\x3d\x3d */\n    @media (min-width: 600px) \x7b\n        tr \x7b\n            /* On wider screens, restrict max width and center more cleanly */\n            max-width: 550px;\n            padding: 25px; /* More generous padding */\n"

def styleChunk8 : String :=
  "            margin: 15px auto;\n        \x7d\n\n        /* Symbol and Value (Primary Info) */\n        tr > td:nth-child(1),\n        tr > td:nth-child(2) \x7b\n            padding: 10px 0;\n        \x7d\n        td.symbol \x7b\n            font-size: 28px;\n        \x7d\n        td.value \x7b\n            font-size: 36px;\n        \x7d\n\n        /* Secondary Info (Profit and Day Bought) */\n"

def styleChunk9 : String :=
  "        tr > td:nth-child(3),\n        tr > td:nth-child(4) \x7b\n            font-size: 16px;\n            padding: 6px 0;\n        \x7d\n    \x7d\n</style>\n        "

/-- The CSS style block of df_to_html (source lines 61-212), split into chunks;
the concatenation below is character-for-character the Python triple-quoted literal. -/
def style : String :=
  styleChunk0 ++ styleChunk1 ++ styleChunk2 ++ styleChunk3 ++ styleChunk4 ++ styleChunk5 ++ styleChunk6 ++ styleChunk7 ++ styleChunk8 ++ styleChunk9

/-- Embeds the header f-string of source line 220: the total portfolio
value and the render timestamp captured at render time; the timestamp
string is an explicit argument since it comes from the wall clock. -/
def headerHtml (total_port_value now : String) : String :=
  "<h1 class=\x27portfolio-value\x27>$" ++ total_port_value ++
    "</h1>\n<div class=\x27timestamp\x27>last updated: " ++ now ++ "</div>"

/-- Embeds the row-class conditional of source line 227. -/
def rowClass (profit : ℚ) : String :=
  if 0 < profit then "tr-positive" else if profit < 0 then "tr-negative" else ""

/-- Embeds the profit branch of format_cell (source lines 234-242): the
signed two-decimal percentage, wrapped in a gain-positive span for positive
values, a gain-negative span for negative values, and no span for zero. -/
def formatProfitCell (val : ℚ) : String :=
  if 0 < val then
    "<td data-label=\"profit\"><span class=\"gain-positive\">" ++
      formatSignedPct val ++ "</span></td>"
  else if val < 0 then
    "<td data-label=\"profit\"><span class=\"gain-negative\">" ++
      formatSignedPct val ++ "</span></td>"
  else "<td data-label=\"profit\">" ++ formatSignedPct val ++ "</td>"

/-- The str form of a Python date, used when the date object is
interpolated into the day-bought f-string. -/
def pyDateStr (d : PyDate) : String :=
  pad4 d.year ++ "-" ++ pad2 d.month ++ "-" ++ pad2 d.day

/-- Embeds the day-bought branch of format_cell (source lines 243-244). -/
def formatDayCell (d : PyDate) : String :=
  "<td data-label-time=\"day bought\">bought: " ++ pyDateStr d ++ "</td>"

/-- Embeds the symbol cell f-string of source line 230: the symbol string
is interpolated verbatim, with no uppercasing in the text itself. -/
def symbolCell (symbol : String) : String :=
  "<td class=\"symbol\">" ++ symbol ++ "</td>"

/-- Embeds the value cell f-string of source line 231. -/
def valueCell (value : String) : String :=
  "<td class=\"value\">" ++ value ++ "</td>"

/-- Embeds the cell concatenation of source line 250. -/
def rowTds (row : Row) : String :=
  symbolCell row.symbol ++ valueCell row.value ++
    formatProfitCell row.profit ++ formatDayCell row.dayBought

/-- Embeds the tr f-string of source line 251 for one row. -/
def buildRow (row : Row) : String :=
  "<tr class=\x27" ++ rowClass row.profit ++ "\x27>" ++ rowTds row ++ "</tr>"

/-- Embeds build_rows (source lines 223-252): one tr per DataFrame row,
joined in order. -/
def build_rows (df : List Row) : String :=
  (df.map buildRow).foldl (fun a b => a ++ b) ""

/-- The thead cells of source line 255, from the four DataFrame columns. -/
def table_headers : String :=
  "<th>symbol</th><th>value</th><th>profit</th><th>day bought</th>"

/-- Embeds the table f-string of source line 256. -/
def html_table (df : List Row) : String :=
  "<table><thead><tr>" ++ table_headers ++ "</tr></thead><tbody>" ++
    build_rows df ++ "</tbody></table>"

/-- Embeds df_to_html (source lines 57-261), returning the html_content
string written to the output file: the bare no-positions notice for an
empty frame, otherwise style plus header plus table. -/
def df_to_html (df : List Row) (total_port_value now : String) : String :=
  if df.isEmpty then "<h2>No positions found</h2>"
  else style ++ headerHtml total_port_value now ++ html_table df

/-! ### The main workflow (source lines 266-275) -/

/-- Embeds the total-equity extraction of source line 270: the first
equity entry whose type is STOCK; none models the StopIteration that the
next builtin raises when no such entry exists, since the generator is
exhausted and no default argument is supplied. -/
def totalPortValue (portfolio_data : PortfolioData) : Option String :=
  ((portfolio_data.equity.filter (fun item => item.type == "STOCK")).head?).map
    (fun item => item.value)

/-- Embeds main (source lines 267-272) after the two network calls have
produced the portfolio response: extract the total, build the frame,
render; none models an uncaught exception aborting the run before the
output file is written. -/
def main_run (portfolio_data : PortfolioData) (now : String) : Option String :=
  match totalPortValue portfolio_data with
  | none => none
  | some total =>
    match portfolio_to_df portfolio_data with
    | none => none
    | some df => some (df_to_html df total now)

/-- The outbound HTTP requests the script can issue. -/
inductive HttpCall where
  | accessTokenPost : HttpCall
  | portfolioGet : HttpCall
deriving DecidableEq

/-- Embeds one whole run of the script: module initialisation (source
lines 9-13) reads the secret from the environment and raises ValueError
when it is unset or empty, before any request is issued; otherwise main
issues the token request and the portfolio request (source lines 268-269,
network responses abstracted by the oracle argument) and renders. The
first component is the trace of outbound HTTP calls, the second the
written report body, none when the run aborts with an uncaught error. -/
def run_script (secret : Option String) (portfolio_data : PortfolioData)
    (now : String) : List HttpCall × Option String :=
  if Option.getD secret ("") = "" then ([], none)
  else ([HttpCall.accessTokenPost, HttpCall.portfolioGet], main_run portfolio_data now)

/-! ### Auxiliary definitions used by the theorems below -/

/-- Characters that can occur in the output of formatSignedPct: digits,
signs, the decimal point and the percent sign. -/
def isFmtChar (c : Char) : Bool :=
  c.isDigit || c == '+' || c == '-' || c == '.' || c == '%'

/-- Printer for an ISO-8601 instant with a trailing Z UTC marker, the
timestamp shape named by the specification for the openedAt field. -/
def isoZ (d : PyDate) (h mi s : ℕ) : String :=
  pad4 d.year ++ "-" ++ pad2 d.month ++ "-" ++ pad2 d.day ++ "T" ++
    pad2 h ++ ":" ++ pad2 mi ++ ":" ++ pad2 s ++ "Z"

/-- Snapshot with positions of current values 999, 1000 and 500, in that
input order: the regression input named by the specification. -/
def valuesRegressionPD : PortfolioData :=
  { positions := some [
      ⟨⟨"AAA"⟩, 999, ⟨0⟩, "2023-05-01T00:00:00Z"⟩,
      ⟨⟨"BBB"⟩, 1000, ⟨0⟩, "2023-05-01T00:00:00Z"⟩,
      ⟨⟨"CCC"⟩, 500, ⟨0⟩, "2023-05-01T00:00:00Z"⟩]
    equity := [⟨"STOCK", "2499.00"⟩] }

/-- Portfolio response whose equity array has no entry of type STOCK. -/
def noStockEquityPD : PortfolioData :=
  { positions := some []
    equity := [⟨"BROKERAGE_CASH", "123.45"⟩] }

/-- Portfolio response with an empty positions array. -/
def emptyPositionsPD : PortfolioData :=
  { positions := some []
    equity := [⟨"STOCK", "0.00"⟩] }

/-- Portfolio response lacking the positions key entirely. -/
def missingPositionsPD : PortfolioData :=
  { positions := none
    equity := [⟨"STOCK", "0.00"⟩] }

/-- A DataFrame row whose symbol is lower-case, to separate the text
placed in the document from its CSS-uppercased appearance. -/
def lowerSymbolRow : Row := ⟨"aapl", "$1.00", 0, ⟨2023, 5, 1⟩⟩

/-! ### Containment helper lemmas -/

theorem containsStr_trans {s q p : String} (h1 : containsStr s q)
    (h2 : containsStr q p) : containsStr s p :=
  List.IsInfix.trans h2 h1

theorem containsStr_append_left (a b pat : String) (h : containsStr a pat) :
    containsStr (a ++ b) pat := by
  unfold containsStr at *
  rw [String.data_append]
  exact h.trans ⟨[], b.data, by simp⟩

theorem containsStr_append_right (a b pat : String) (h : containsStr b pat) :
    containsStr (a ++ b) pat := by
  unfold containsStr at *
  rw [String.data_append]
  exact h.trans ⟨a.data, [], by simp⟩

theorem containsStr_refl (s : String) : containsStr s s :=
  List.infix_refl _

/-! ### Character classes of the formatted percentage -/

theorem digitChar_isDigit {d : ℕ} (h : d < 10) : (digitChar d).isDigit = true := by
  interval_cases d <;> decide

theorem digitChar_fmt {d : ℕ} (h : d < 10) : isFmtChar (digitChar d) = true := by
  simp [isFmtChar, digitChar_isDigit h]

theorem digitVal_digitChar {d : ℕ} (h : d < 10) : digitVal (digitChar d) = some d := by
  interval_cases d <;> decide

theorem digitChar_ne_Z {d : ℕ} (h : d < 10) : digitChar d ≠ 'Z' := by
  interval_cases d <;> decide

theorem natDecAux_digits : ∀ fuel n : ℕ, ∀ c ∈ natDecAux fuel n, c.isDigit = true := by
  intro fuel
  induction fuel with
  | zero => intro n c hc; simp [natDecAux] at hc
  | succ k ih =>
    intro n c hc
    by_cases h : n = 0
    · simp [natDecAux, h] at hc
    · simp only [natDecAux, if_neg h, List.mem_cons] at hc
      rcases hc with hc | hc
      · subst hc; exact digitChar_isDigit (Nat.mod_lt _ (by omega))
      · exact ih _ c hc

theorem natDec_digits (n : ℕ) : ∀ c ∈ (natDec n).data, c.isDigit = true := by
  intro c hc
  unfold natDec at hc
  by_cases h : n = 0
  · rw [if_pos h] at hc
    simp at hc
    subst hc
    decide
  · rw [if_neg h] at hc
    exact natDecAux_digits n n c (List.mem_reverse.mp hc)

theorem pad2_fmt (n : ℕ) : ∀ c ∈ (pad2 n).data, isFmtChar c = true := by
  intro c hc
  have hc2 : c ∈ [digitChar (n / 10 % 10), digitChar (n % 10)] := hc
  simp only [List.mem_cons, List.not_mem_nil, or_false] at hc2
  rcases hc2 with hc2 | hc2 <;>
    (subst hc2; exact digitChar_fmt (Nat.mod_lt _ (by omega)))

theorem formatSignedPct_fmt (v : ℚ) : ∀ c ∈ (formatSignedPct v).data, isFmtChar c = true := by
  intro c hc
  unfold formatSignedPct at hc
  simp only [String.data_append, List.mem_append] at hc
  rcases hc with ((((hc | hc) | hc) | hc) | hc)
  · by_cases h : v < 0
    · rw [if_pos h] at hc
      simp at hc
      subst hc
      decide
    · rw [if_neg h] at hc
      simp at hc
      subst hc
      decide
  · simp [isFmtChar, natDec_digits _ c hc]
  · simp at hc
    subst hc
    decide
  · exact pad2_fmt _ c hc
  · simp at hc
    subst hc
    decide

theorem formatSignedPct_ne_nil (v : ℚ) : (formatSignedPct v).data ≠ [] := by
  unfold formatSignedPct
  simp [String.data_append]

/-! ### A pattern with no formatting characters cannot straddle the
formatted percentage embedded between two literal markup strings -/

theorem prefThroughFmt : ∀ P A F B : List Char,
    (∀ c ∈ F, isFmtChar c = true) → (∀ c ∈ P, isFmtChar c = false) → F ≠ [] →
    P <+: (A ++ (F ++ B)) → P <+: A := by
  intro P
  induction P with
  | nil => intro A F B _ _ _ _; exact List.nil_prefix
  | cons p P ih =>
    intro A F B hF hP hFne hpre
    cases A with
    | nil =>
      simp only [List.nil_append] at hpre
      cases F with
      | nil => exact absurd rfl hFne
      | cons f F =>
        rw [List.cons_append] at hpre
        rcases List.cons_prefix_cons.mp hpre with ⟨hpf, _⟩
        have h1 := hF f (by simp)
        have h2 := hP p (by simp)
        rw [hpf, h1] at h2
        cases h2
    | cons a A =>
      rw [List.cons_append] at hpre
      rcases List.cons_prefix_cons.mp hpre with ⟨hpa, htail⟩
      subst hpa
      exact List.cons_prefix_cons.mpr
        ⟨rfl, ih A F B hF (fun c hc => hP c (List.mem_cons_of_mem _ hc)) hFne htail⟩

theorem infThroughFmt : ∀ F B P : List Char,
    (∀ c ∈ F, isFmtChar c = true) → (∀ c ∈ P, isFmtChar c = false) → P ≠ [] →
    P <:+: (F ++ B) → P <:+: B := by
  intro F
  induction F with
  | nil => intro B P _ _ _ h; simpa using h
  | cons f F ih =>
    intro B P hF hP hPne h
    rw [List.cons_append] at h
    rcases List.infix_cons_iff.mp h with hpre | hinf
    · cases P with
      | nil => exact absurd rfl hPne
      | cons p P =>
        rcases List.cons_prefix_cons.mp hpre with ⟨hpf, _⟩
        have h1 := hF f (by simp)
        have h2 := hP p (by simp)
        rw [hpf, h1] at h2
        cases h2
    · exact ih B P (fun c hc => hF c (List.mem_cons_of_mem _ hc)) hP hPne hinf

theorem infSplit : ∀ A P F B : List Char,
    (∀ c ∈ F, isFmtChar c = true) → F ≠ [] →
    (∀ c ∈ P, isFmtChar c = false) → P ≠ [] →
    P <:+: (A ++ (F ++ B)) → P <:+: A ∨ P <:+: B := by
  intro A
  induction A with
  | nil =>
    intro P F B hF hFne hP hPne h
    right
    exact infThroughFmt F B P hF hP hPne (by simpa using h)
  | cons a A ih =>
    intro P F B hF hFne hP hPne h
    rw [List.cons_append] at h
    rcases List.infix_cons_iff.mp h with hpre | hinf
    · left
      have hpre2 : P <+: (a :: A) ++ (F ++ B) := by
        rw [List.cons_append]
        exact hpre
      exact (prefThroughFmt P (a :: A) F B hF hP hFne hpre2).isInfix
    · rcases ih P F B hF hFne hP hPne hinf with h1 | h2
      · exact Or.inl (h1.trans (List.suffix_cons a A).isInfix)
      · exact Or.inr h2

/-- A pattern with no digit, sign, dot or percent characters that occurs
in some literal markup, then a formatted percentage, then more literal
markup, occurs entirely inside one of the two markup strings. -/
theorem containsSplit (A B P : String) (v : ℚ)
    (hP : ∀ c ∈ P.data, isFmtChar c = false) (hPne : P.data ≠ [])
    (h : containsStr (A ++ formatSignedPct v ++ B) P) :
    containsStr A P ∨ containsStr B P := by
  unfold containsStr at *
  rw [String.data_append, String.data_append, List.append_assoc] at h
  exact infSplit A.data P.data (formatSignedPct v).data B.data
    (formatSignedPct_fmt v) (formatSignedPct_ne_nil v) hP hPne h

/-! ### Claim theorems -/

/-- C5: for every rendered position the qualitative indicator is a pure
function of the sign of its gain percentage: a positive gain yields the
gain-positive styling (and the tr-positive row class), a negative gain the
gain-negative styling (and tr-negative), and a gain of exactly zero yields
neutral styling, with neither gain class and an empty row class. -/
theorem indicator_pure_function_of_sign (g : ℚ) :
    (0 < g → rowClass g = "tr-positive" ∧
      containsStr (formatProfitCell g) ("gain-positive") ∧
      ¬ containsStr (formatProfitCell g) ("gain-negative")) ∧
    (g < 0 → rowClass g = "tr-negative" ∧
      containsStr (formatProfitCell g) ("gain-negative") ∧
      ¬ containsStr (formatProfitCell g) ("gain-positive")) ∧
    (g = 0 → rowClass g = "" ∧
      ¬ containsStr (formatProfitCell g) ("gain-positive") ∧
      ¬ containsStr (formatProfitCell g) ("gain-negative")) := by
  refine ⟨fun hpos => ⟨?_, ?_, ?_⟩, fun hneg => ⟨?_, ?_, ?_⟩, fun hzero => ⟨?_, ?_, ?_⟩⟩
  · rw [rowClass, if_pos hpos]
  · unfold formatProfitCell
    rw [if_pos hpos]
    exact containsStr_append_left _ _ _ (containsStr_append_left _ _ _ (by decide))
  · intro hcontra
    unfold formatProfitCell at hcontra
    rw [if_pos hpos] at hcontra
    have h2 := containsStr_trans hcontra (by decide : containsStr ("gain-negative") ("negative"))
    rcases containsSplit _ _ _ g (by decide) (by decide) h2 with h3 | h3
    · exact absurd h3 (by decide)
    · exact absurd h3 (by decide)
  · rw [rowClass, if_neg (by exact not_lt.mpr hneg.le), if_pos hneg]
  · unfold formatProfitCell
    rw [if_neg (by exact not_lt.mpr hneg.le), if_pos hneg]
    exact containsStr_append_left _ _ _ (containsStr_append_left _ _ _ (by decide))
  · intro hcontra
    unfold formatProfitCell at hcontra
    rw [if_neg (by exact not_lt.mpr hneg.le), if_pos hneg] at hcontra
    have h2 := containsStr_trans hcontra (by decide : containsStr ("gain-positive") ("positive"))
    rcases containsSplit _ _ _ g (by decide) (by decide) h2 with h3 | h3
    · exact absurd h3 (by decide)
    · exact absurd h3 (by decide)
  · rw [rowClass, if_neg (by rw [hzero]; exact lt_irrefl 0), if_neg (by rw [hzero]; exact lt_irrefl 0)]
  · intro hcontra
    unfold formatProfitCell at hcontra
    rw [if_neg (by rw [hzero]; exact lt_irrefl 0), if_neg (by rw [hzero]; exact lt_irrefl 0)] at hcontra
    have h2 := containsStr_trans hcontra (by decide : containsStr ("gain-positive") ("positive"))
    rcases containsSplit _ _ _ g (by decide) (by decide) h2 with h3 | h3
    · exact absurd h3 (by decide)
    · exact absurd h3 (by decide)
  · intro hcontra
    unfold formatProfitCell at hcontra
    rw [if_neg (by rw [hzero]; exact lt_irrefl 0), if_neg (by rw [hzero]; exact lt_irrefl 0)] at hcontra
    have h2 := containsStr_trans hcontra (by decide : containsStr ("gain-negative") ("negative"))
    rcases containsSplit _ _ _ g (by decide) (by decide) h2 with h3 | h3
    · exact absurd h3 (by decide)
    · exact absurd h3 (by decide)

/-- Witness for C5 at the gains one, minus one and zero. -/
theorem indicator_pure_function_of_sign_witness :
    (rowClass 1 = "tr-positive" ∧ containsStr (formatProfitCell 1) ("gain-positive")) ∧
    (rowClass (-1) = "tr-negative" ∧ containsStr (formatProfitCell (-1)) ("gain-negative")) ∧
    (rowClass 0 = "" ∧ ¬ containsStr (formatProfitCell 0) ("gain-positive") ∧
      ¬ containsStr (formatProfitCell 0) ("gain-negative")) :=
  ⟨⟨((indicator_pure_function_of_sign 1).1 (by norm_num)).1,
    ((indicator_pure_function_of_sign 1).1 (by norm_num)).2.1⟩,
   ⟨((indicator_pure_function_of_sign (-1)).2.1 (by norm_num)).1,
    ((indicator_pure_function_of_sign (-1)).2.1 (by norm_num)).2.1⟩,
   (indicator_pure_function_of_sign 0).2.2 rfl⟩

/-- C7: every gain percentage is rendered with an explicit leading sign
and exactly two digits after the decimal point, the sign being minus
exactly for negative gains, and a gain of exactly zero renders as the
plus-signed +0.00% rather than a distinct neutral display; the two spec
examples are also checked. -/
theorem gain_rendered_signed_two_decimals :
    (∀ g : ℚ, ∃ n m : ℕ, m < 100 ∧ (pad2 m).data.length = 2 ∧
      ((¬ g < 0 ∧ formatSignedPct g = "+" ++ natDec n ++ "." ++ pad2 m ++ "%") ∨
       (g < 0 ∧ formatSignedPct g = "-" ++ natDec n ++ "." ++ pad2 m ++ "%"))) ∧
    formatSignedPct 0 = "+0.00%" ∧
    formatSignedPct (mkRat 314 100) = "+3.14%" ∧
    formatSignedPct (mkRat (-1) 2) = "-0.50%" := by
  refine ⟨fun g => ⟨centsOf g / 100, centsOf g % 100, Nat.mod_lt _ (by omega), rfl, ?_⟩,
    by decide, by decide, by decide⟩
  by_cases hneg : g < 0
  · exact Or.inr ⟨hneg, by unfold formatSignedPct; rw [if_pos hneg]⟩
  · exact Or.inl ⟨hneg, by unfold formatSignedPct; rw [if_neg hneg]⟩

/-- C1: on the snapshot with current values 999, 1000 and 500 in input
order, the code sorts the currency-formatted strings, so the rendered
order is the string-lexicographic descending 999, 500, 1000 and not the
true numeric descending 1000, 500, 999 that the claim requires. -/
theorem sort_is_lexicographic_on_regression_input :
    (portfolio_to_df valuesRegressionPD).map (fun df => df.map (fun r => r.value)) =
      some ["$999.00", "$500.00", "$1,000.00"] ∧
    (portfolio_to_df valuesRegressionPD).map (fun df => df.map (fun r => r.value)) ≠
      some ["$1,000.00", "$500.00", "$999.00"] := by
  refine ⟨by decide, ?_⟩
  intro hcontra
  rw [(by decide : (portfolio_to_df valuesRegressionPD).map (fun df => df.map (fun r => r.value)) =
    some ["$999.00", "$500.00", "$1,000.00"])] at hcontra
  exact absurd hcontra (by decide)

/-- C2: when the equity array has no entry of type STOCK, the next builtin
of source line 270 has no default argument, so the extraction yields no
value and the run aborts with StopIteration instead of rendering a report
with a zero total: main produces no output at the failing input. -/
theorem missing_stock_total_aborts_run :
    totalPortValue noStockEquityPD = none ∧
    main_run noStockEquityPD ("2026-01-01 00:00:00") = none ∧
    (run_script (some ("s3cret")) noStockEquityPD ("2026-01-01 00:00:00")).2 = none := by
  decide

/-- C3: with the secret unset or empty, module initialisation raises the
configuration error before main runs, so the trace of outbound HTTP calls
is empty and no report is produced. -/
theorem empty_secret_stops_before_network (secret : Option String)
    (portfolio_data : PortfolioData) (now : String)
    (h : secret = none ∨ secret = some "") :
    run_script secret portfolio_data now = ([], none) := by
  rcases h with h | h <;> subst h <;> rfl

/-- Witness for C3: an unset secret and an empty secret both yield an
empty call trace. -/
theorem empty_secret_stops_before_network_witness :
    run_script none missingPositionsPD ("now") = ([], none) ∧
    run_script (some ("")) missingPositionsPD ("now") = ([], none) :=
  ⟨empty_secret_stops_before_network none missingPositionsPD ("now") (Or.inl rfl),
   empty_secret_stops_before_network (some ("")) missingPositionsPD ("now") (Or.inr rfl)⟩

/-- C4: a snapshot with an empty positions array yields an empty frame,
and the rendered body is exactly the no-positions notice, containing
neither the portfolio-value header nor the timestamp block. -/
theorem empty_positions_notice_only (portfolio_data : PortfolioData)
    (total now : String) (h : portfolio_data.positions = some []) :
    portfolio_to_df portfolio_data = some [] ∧
    df_to_html [] total now = "<h2>No positions found</h2>" ∧
    ¬ containsStr (df_to_html [] total now) ("portfolio-value") ∧
    ¬ containsStr (df_to_html [] total now) ("class=\x27timestamp\x27") ∧
    ¬ containsStr (df_to_html [] total now) ("last updated:") := by
  have hb : df_to_html [] total now = "<h2>No positions found</h2>" := rfl
  refine ⟨by simp [portfolio_to_df, h], hb, ?_, ?_, ?_⟩ <;> rw [hb] <;> decide

/-- Witness for C4 at a concrete empty snapshot. -/
theorem empty_positions_notice_only_witness :
    portfolio_to_df emptyPositionsPD = some [] ∧
    df_to_html [] ("0.00") ("ts") = "<h2>No positions found</h2>" :=
  ⟨(empty_positions_notice_only emptyPositionsPD ("0.00") ("ts") rfl).1,
   (empty_positions_notice_only emptyPositionsPD ("0.00") ("ts") rfl).2.1⟩

/-- C10: a portfolio response lacking the positions key entirely is
treated exactly as an empty positions list: the get default of source
line 36 yields the empty list, the frame is empty, no error is raised and
the rendered body is the no-positions notice. -/
theorem missing_positions_key_like_empty (portfolio_data : PortfolioData)
    (total now : String) (h : portfolio_data.positions = none) :
    portfolio_to_df portfolio_data = some [] ∧
    df_to_html ((portfolio_to_df portfolio_data).getD []) total now =
      "<h2>No positions found</h2>" := by
  have h1 : portfolio_to_df portfolio_data = some [] := by simp [portfolio_to_df, h]
  refine ⟨h1, ?_⟩
  rw [h1]
  rfl

/-- Witness for C10 at a concrete response without a positions key. -/
theorem missing_positions_key_like_empty_witness :
    portfolio_to_df missingPositionsPD = some [] ∧
    df_to_html ((portfolio_to_df missingPositionsPD).getD []) ("0.00") ("ts") =
      "<h2>No positions found</h2>" :=
  missing_positions_key_like_empty missingPositionsPD ("0.00") ("ts") rfl

set_option maxRecDepth 10000 in
/-- Counterexample for C9: for the lower-case input symbol aapl the text
placed in the symbol cell of the rendered block is the verbatim aapl, not
the upper-case form AAPL that the claim asserts. -/
theorem symbol_text_not_uppercased :
    symbolCell ("aapl") = "<td class=\"symbol\">aapl</td>" ∧
    symbolCell ("aapl") ≠ "<td class=\"symbol\">AAPL</td>" ∧
    containsStr (build_rows [lowerSymbolRow]) ("<td class=\"symbol\">aapl</td>") ∧
    ¬ containsStr (build_rows [lowerSymbolRow]) ("AAPL") := by
  decide

set_option maxRecDepth 40000 in
/-- Amended C9: the symbol text is placed in the block verbatim, and the
upper-case appearance comes from the stylesheet carried by the document,
whose CSS applies text-transform uppercase to symbol cells; the rendered
document contains the verbatim symbol cell and the uppercase rule. -/
theorem symbol_verbatim_css_uppercases (row : Row) (total now : String) :
    containsStr (df_to_html [row] total now)
      ("<td class=\"symbol\">" ++ row.symbol ++ "</td>") ∧
    containsStr (df_to_html [row] total now) ("text-transform: uppercase") ∧
    containsStr style ("text-transform: uppercase") := by
  have hd : df_to_html [row] total now =
      style ++ headerHtml total now ++ html_table [row] := by
    simp [df_to_html]
  have hs : containsStr style ("text-transform: uppercase") := by
    have hc : containsStr styleChunk4 ("text-transform: uppercase") := by decide
    exact containsStr_append_left _ _ _ (containsStr_append_left _ _ _
      (containsStr_append_left _ _ _ (containsStr_append_left _ _ _
        (containsStr_append_left _ _ _ (containsStr_append_right _ _ _ hc)))))
  refine ⟨?_, ?_, hs⟩
  · rw [hd]
    have h1 : containsStr (rowTds row) (symbolCell row.symbol) :=
      containsStr_append_left _ _ _ (containsStr_append_left _ _ _
        (containsStr_append_left _ _ _ (containsStr_refl _)))
    have h2 : containsStr (buildRow row) (symbolCell row.symbol) :=
      containsStr_append_left _ _ _ (containsStr_append_right _ _ _ h1)
    have h3 : containsStr (build_rows [row]) (symbolCell row.symbol) :=
      containsStr_append_right ("") _ _ h2
    have h4 : containsStr (html_table [row]) (symbolCell row.symbol) :=
      containsStr_append_left _ _ _ (containsStr_append_right _ _ _ h3)
    exact containsStr_append_right _ _ _ h4
  · rw [hd]
    exact containsStr_append_left _ _ _ (containsStr_append_left _ _ _ hs)

/-! ### Parsing lemmas for the acquisition-date round trip -/

theorem expectChar_cons (c : Char) (r : List Char) : expectChar c (c :: r) = some r := by
  simp [expectChar]

theorem readDigits_two (n : ℕ) (h : n < 100) (r : List Char) :
    readDigits 2 0 ((pad2 n).data ++ r) = some (n, r) := by
  have h1 : n / 10 % 10 < 10 := Nat.mod_lt _ (by omega)
  have h2 : n % 10 < 10 := Nat.mod_lt _ (by omega)
  show readDigits 2 0 (digitChar (n / 10 % 10) :: digitChar (n % 10) :: r) = some (n, r)
  simp only [readDigits, digitVal_digitChar h1, digitVal_digitChar h2,
    Option.some.injEq, Prod.mk.injEq, and_true]
  omega

theorem readDigits_four (n : ℕ) (h : n < 10000) (r : List Char) :
    readDigits 4 0 ((pad4 n).data ++ r) = some (n, r) := by
  have h1 : n / 1000 % 10 < 10 := Nat.mod_lt _ (by omega)
  have h2 : n / 100 % 10 < 10 := Nat.mod_lt _ (by omega)
  have h3 : n / 10 % 10 < 10 := Nat.mod_lt _ (by omega)
  have h4 : n % 10 < 10 := Nat.mod_lt _ (by omega)
  show readDigits 4 0 (digitChar (n / 1000 % 10) :: digitChar (n / 100 % 10) ::
    digitChar (n / 10 % 10) :: digitChar (n % 10) :: r) = some (n, r)
  simp only [readDigits, digitVal_digitChar h1, digitVal_digitChar h2,
    digitVal_digitChar h3, digitVal_digitChar h4,
    Option.some.injEq, Prod.mk.injEq, and_true]
  omega

theorem pyReplaceChar_append (a b : String) (old : Char) (new : String) :
    pyReplaceChar (a ++ b) old new = pyReplaceChar a old new ++ pyReplaceChar b old new := by
  unfold pyReplaceChar
  exact congrArg String.mk (by rw [String.data_append]; exact List.flatMap_append a.data b.data _)

theorem flatMap_keep (old : Char) (new : String) :
    ∀ l : List Char, (∀ c ∈ l, c ≠ old) →
      l.flatMap (fun c => if c = old then new.data else [c]) = l := by
  intro l
  induction l with
  | nil => intro; rfl
  | cons c cs ih =>
    intro h
    rw [List.flatMap_cons, if_neg (h c (by simp)),
      ih (fun x hx => h x (List.mem_cons_of_mem _ hx))]
    rfl

theorem pyReplaceChar_keep (s : String) (old : Char) (new : String)
    (h : ∀ c ∈ s.data, c ≠ old) : pyReplaceChar s old new = s := by
  unfold pyReplaceChar
  rw [flatMap_keep old new s.data h]

theorem pad2_ne_Z (n : ℕ) : ∀ c ∈ (pad2 n).data, c ≠ 'Z' := by
  intro c hc
  have hc2 : c ∈ [digitChar (n / 10 % 10), digitChar (n % 10)] := hc
  simp only [List.mem_cons, List.not_mem_nil, or_false] at hc2
  rcases hc2 with hc2 | hc2 <;>
    (subst hc2; exact digitChar_ne_Z (Nat.mod_lt _ (by omega)))

theorem pad4_ne_Z (n : ℕ) : ∀ c ∈ (pad4 n).data, c ≠ 'Z' := by
  intro c hc
  have hc2 : c ∈ [digitChar (n / 1000 % 10), digitChar (n / 100 % 10),
      digitChar (n / 10 % 10), digitChar (n % 10)] := hc
  simp only [List.mem_cons, List.not_mem_nil, or_false] at hc2
  rcases hc2 with hc2 | hc2 | hc2 | hc2 <;>
    (subst hc2; exact digitChar_ne_Z (Nat.mod_lt _ (by omega)))

theorem isoZ_core_ne_Z (d : PyDate) (h mi s : ℕ) :
    ∀ c ∈ (pad4 d.year ++ "-" ++ pad2 d.month ++ "-" ++ pad2 d.day ++ "T" ++
      pad2 h ++ ":" ++ pad2 mi ++ ":" ++ pad2 s).data, c ≠ 'Z' := by
  intro c hc
  simp only [String.data_append, List.mem_append] at hc
  rcases hc with (((((((((hc | hc) | hc) | hc) | hc) | hc) | hc) | hc) | hc) | hc) | hc <;>
    first
      | exact pad4_ne_Z _ c hc
      | exact pad2_ne_Z _ c hc
      | (subst hc; decide)
      | (simp at hc; subst hc; decide)

theorem pyReplaceChar_isoZ (d : PyDate) (h mi s : ℕ) :
    pyReplaceChar (isoZ d h mi s) 'Z' ("+00:00") =
      (pad4 d.year ++ "-" ++ pad2 d.month ++ "-" ++ pad2 d.day ++ "T" ++
        pad2 h ++ ":" ++ pad2 mi ++ ":" ++ pad2 s) ++ "+00:00" := by
  unfold isoZ
  rw [pyReplaceChar_append]
  rw [pyReplaceChar_keep _ _ _ (isoZ_core_ne_Z d h mi s)]
  rw [show pyReplaceChar ("Z") 'Z' ("+00:00") = "+00:00" from by decide]

theorem daysInMonth_le (y m : ℕ) : daysInMonth y m ≤ 31 := by
  unfold daysInMonth
  repeat' split
  all_goals omega

/-- C8: for a position whose openedAt field is an ISO-8601 instant with a
trailing Z marker, the extracted acquisition date is the UTC calendar date
written in the instant, with the time of day discarded; no process-local
timezone enters the computation, as the embedding of the date method takes
no timezone input. -/
theorem acquisition_date_is_utc_calendar_date (d : PyDate) (h mi s : ℕ)
    (hy1 : 1 ≤ d.year) (hy : d.year ≤ 9999)
    (hmo1 : 1 ≤ d.month) (hmo : d.month ≤ 12)
    (hd1 : 1 ≤ d.day) (hdm : d.day ≤ daysInMonth d.year d.month)
    (hh : h ≤ 23) (hmi : mi ≤ 59) (hs : s ≤ 59) :
    openedAtDate (isoZ d h mi s) = some d := by
  have hval1 : 1 ≤ d.year ∧ 1 ≤ d.month ∧ d.month ≤ 12 ∧ 1 ≤ d.day ∧
      d.day ≤ daysInMonth d.year d.month := ⟨hy1, hmo1, hmo, hd1, hdm⟩
  have hval2 : h ≤ 23 ∧ mi ≤ 59 ∧ s ≤ 59 := ⟨hh, hmi, hs⟩
  unfold openedAtDate
  rw [pyReplaceChar_isoZ]
  unfold fromisoformat
  have hday : d.day < 100 := by
    have := daysInMonth_le d.year d.month
    omega
  simp only [String.data_append, List.append_assoc,
    show ("-" : String).data = ['-'] from rfl,
    show ("T" : String).data = ['T'] from rfl,
    show (":" : String).data = [':'] from rfl,
    show ("+00:00" : String).data = ['+', '0', '0', ':', '0', '0'] from rfl,
    List.cons_append, List.nil_append]
  simp only [readDigits_four d.year (by omega), expectChar_cons,
    readDigits_two d.month (by omega), readDigits_two d.day hday,
    fromisoTail, fromisoTime, readDigits_two h (by omega),
    readDigits_two mi (by omega), readDigits_two s (by omega),
    show fromisoOffset ['+', '0', '0', ':', '0', '0'] = some (some 0) from by decide,
    Option.bind, Option.map, hy1, hmo1, hmo, hd1, hdm, hh, hmi, hs,
    and_self, if_true, ite_true, true_or, if_pos]

/-- Witness for C8 at the spec example instant. -/
theorem acquisition_date_is_utc_calendar_date_witness :
    isoZ ⟨2023, 5, 1⟩ 0 0 0 = "2023-05-01T00:00:00Z" ∧
    openedAtDate ("2023-05-01T00:00:00Z") = some ⟨2023, 5, 1⟩ := by
  refine ⟨by decide, ?_⟩
  rw [show ("2023-05-01T00:00:00Z" : String) = isoZ ⟨2023, 5, 1⟩ 0 0 0 from by decide]
  exact acquisition_date_is_utc_calendar_date ⟨2023, 5, 1⟩ 0 0 0 (by decide) (by decide)
    (by decide) (by decide) (by decide) (by decide) (by decide) (by decide) (by decide)
